import Mathlib

/-!
Verification of the nestjs-langchain service layer.

We shallowly embed the service methods of `LangchainChatService`
(basicChat, contextAwareChat, documentChat, uploadPDF, agentChat) and the
helpers they use (formatMessage, successResponse, exceptionHandling), with
external collaborators (completion model, vector store, filesystem, pdf
loader, tools) passed in as function parameters.  Each operation returns the
list of external calls it made, the internal log lines it produced, and its
outcome (a returned body or a thrown HttpException).
-/

namespace LangchainChat

/-- A thrown JavaScript error, as seen by the catch blocks of the service.
`badRequest` is a NestJS BadRequestException (HTTP 400 class), `typeError`
is a runtime TypeError, `external` is any error coming out of an external
collaborator (completion model, vector store, filesystem, pdf loader). -/
inductive JsError where
  | badRequest (message : String)
  | typeError (message : String)
  | external (message : String)
deriving DecidableEq, Repr

/-- The body shape produced by `customMessage(statusCode, message, data?)`
(src/utils/responses/customMessage.response).  The optional `data` argument
is modelled as a `String`, empty when the source omits it. -/
structure CustomMessage where
  statusCode : Nat
  message : String
  data : String
deriving DecidableEq, Repr

/-- Outcome of one service method: a normally returned body, a thrown
`HttpException(body, status)`, or — for the spec-modelled agent executor —
the distinct "agent did not converge" outcome. -/
inductive ChatResult where
  | ok (body : CustomMessage)
  | thrown (status : Nat) (body : CustomMessage)
  | didNotConverge
deriving DecidableEq, Repr

/-- A result is a client error when it is a thrown HttpException with a 4xx
status code (e.g. a surfaced BadRequestException). -/
def ChatResult.isClientError : ChatResult → Bool
  | .thrown status _ => if 400 ≤ status ∧ status < 500 then true else false
  | _ => false

/-- The metadata object attached to each stored chunk by `uploadPDF`:
the object literal has the single key `pageNumber`. -/
structure DocMetadata where
  pageNumber : Nat
deriving DecidableEq, Repr

/-- A langchain `Document` as built and stored by this service:
`pageContent` plus the `pageNumber` metadata. -/
structure Document where
  pageContent : String
  metadata : DocMetadata
deriving DecidableEq, Repr

/-- External calls a service method can make, in order. -/
inductive Event where
  | searchCall (query : String) (k : Nat)
  | completeCall (prompt : String)
  | addDocumentsCall (docs : List Document)
deriving DecidableEq, Repr

/-- What one service method did: the external calls it made, the lines it
logged (Logger.error / console.log), and its outcome. -/
structure OpResult where
  events : List Event
  logs : List JsError
  result : ChatResult
deriving DecidableEq, Repr

/-- A chat message as received from the caller (`Message` from the `ai`
package): a role string and a content string. -/
structure VercelChatMessage where
  role : String
  content : String
deriving DecidableEq, Repr

/-- Constant from src/utils/constants/messages.constants (module not
included in the sources at hand); the exact wording is immaterial to the
claims, only that it is a fixed constant. -/
def MESSAGES_SUCCESS : String := "Success"

/-- Constant from src/utils/constants/messages.constants (module not
included in the sources at hand); the generic upstream-failure message. -/
def MESSAGES_EXTERNAL_SERVER_ERROR : String := "External server error"

/-- From src/utils/constants/common.constants. -/
def PDF_BASE_PATH : String := "./src/pdfs"

/-- JavaScript `Array.prototype.join(sep)`. -/
def joinSep (sep : String) : List String → String
  | [] => ""
  | [s] => s
  | s :: t :: rest => s ++ sep ++ joinSep sep (t :: rest)

/-- JavaScript `String.fromCharCode(code)`: the argument is reduced
modulo 2^16 and becomes a single UTF-16 code unit / character. -/
def fromCharCode (code : Nat) : String :=
  String.singleton (Char.ofNat (code % 65536))

/-- `successResponse` (langchain-chat.service):
`customMessage(HttpStatus.OK, MESSAGES.SUCCESS,
Object.values(response).map((code) => String.fromCharCode(code)).join(''))`
where `response` is the Uint8Array produced by the HttpResponseOutputParser;
`Object.values` of a Uint8Array lists its byte values in index order. -/
def successResponse (response : List Nat) : CustomMessage :=
  ⟨200, MESSAGES_SUCCESS, joinSep "" (response.map fromCharCode)⟩

/-- The body `customMessage(HttpStatus.INTERNAL_SERVER_ERROR,
MESSAGES.EXTERNAL_SERVER_ERROR)` thrown by `exceptionHandling`. -/
def serverErrorBody : CustomMessage :=
  ⟨500, MESSAGES_EXTERNAL_SERVER_ERROR, ""⟩

/-- `exceptionHandling` (langchain-chat.service): logs the caught error and
throws `HttpException(customMessage(500, EXTERNAL_SERVER_ERROR), 500)`,
whatever the error was.  Returns (log lines, thrown outcome). -/
def exceptionHandling (e : JsError) : List JsError × ChatResult :=
  ([e], .thrown 500 serverErrorBody)

/-- `formatMessage` (langchain-chat.service). -/
def formatMessage (message : VercelChatMessage) : String :=
  message.role ++ ": " ++ message.content

/-- The `chat_history` value computed by `contextAwareChat`:
`messages.slice(0, -1).map(this.formatMessage)` joined with newlines. -/
def contextAwareHistory (messages : List VercelChatMessage) : String :=
  joinSep "\n" (messages.dropLast.map formatMessage)

/-- TEMPLATES.BASIC_CHAT_TEMPLATE rendered with its `input` variable
(f-string substitution performed by PromptTemplate). -/
def renderBasicChat (input : String) : String :=
  "You are an expert software engineer, give concise response.\n   User: "
    ++ input ++ "\n   AI:"

/-- TEMPLATES.CONTEXT_AWARE_CHAT_TEMPLATE rendered with its `chat_history`
and `input` variables. -/
def renderContextAware (chat_history input : String) : String :=
  "You are an expert software engineer, give concise response.\n  \n   Current conversation:\n   "
    ++ chat_history ++ "\n   \n   User: " ++ input ++ "\n   AI:"

/-- TEMPLATES.DOCUMENT_CONTEXT_CHAT_TEMPLATE rendered with its `context`
and `question` variables. -/
def renderDocumentContext (context question : String) : String :=
  "Answer the question based only on the following context:\n   "
    ++ context ++ "\n   \n   Question: " ++ question

/-- JSON string escaping for one character (the cases JSON.stringify
escapes that can occur in this development). -/
def jsonEscapeChar (c : Char) : String :=
  if c = '"' then "\\\""
  else if c = '\\' then "\\\\"
  else if c = '\n' then "\\n"
  else if c = '\r' then "\\r"
  else if c = '\t' then "\\t"
  else String.singleton c

/-- JSON.stringify of a string value. -/
def jsonString (s : String) : String :=
  "\"" ++ joinSep "" (s.data.map jsonEscapeChar) ++ "\""

/-- JSON.stringify of one stored `Document`. -/
def jsonDocument (d : Document) : String :=
  "\x7b\"pageContent\":" ++ jsonString d.pageContent
    ++ ",\"metadata\":\x7b\"pageNumber\":" ++ toString d.metadata.pageNumber
    ++ "\x7d\x7d"

/-- `JSON.stringify(documentContext)`: the retrieved matches serialized as
a JSON array, in retrieval order. -/
def jsonStringifyDocs (docs : List Document) : String :=
  "[" ++ joinSep "," (docs.map jsonDocument) ++ "]"

/-- Modelled from the spec: the Text Chunker (spec section 4.1) is the
framework RecursiveCharacterTextSplitter, whose implementation is not under
src/.  Sliding windows of at most `size` characters; when more than `size`
characters remain, a full window is emitted and the next window starts
`step = size - overlap` characters later; a remainder of at most `size`
characters is emitted as the final chunk.  The fuel argument bounds the
recursion and is passed the text length, which suffices whenever
`step ≥ 1`. -/
def chunkChars (size step : Nat) : Nat → List Char → List (List Char)
  | _, [] => []
  | 0, _ => []
  | fuel + 1, l =>
    if l.length ≤ size then [l]
    else l.take size :: chunkChars size step fuel (l.drop step)

/-- Modelled from the spec: `chunk(text, chunkSize, chunkOverlap)` of the
Text Chunker (spec section 4.1); empty text yields the empty sequence. -/
def chunkText (chunkSize chunkOverlap : Nat) (text : String) : List String :=
  (chunkChars chunkSize (chunkSize - chunkOverlap) text.data.length text.data).map
    String.mk

/-- `textSplitter.splitDocuments(pdf)` in `uploadPDF`: every page document
of the loaded PDF is split with the chunker configured with
`chunkSize 1000, chunkOverlap 50`, and the chunks of all pages are returned
as one flat list (chunk texts, in page order). -/
def splitDocuments (pdfPages : List String) : List String :=
  (pdfPages.map (chunkText 1000 50)).flatten

/-- The `embeddings` accumulation loop of `uploadPDF`: for each `index`
into `texts`, `texts[index]` is split again with the same splitter and each
resulting piece becomes a Document whose metadata is
`\x7b pageNumber: index \x7d`. -/
def mkEmbeddings (texts : List String) : List Document :=
  (texts.enum.map
    (fun p => (chunkText 1000 50 p.2).map (fun t => Document.mk t ⟨p.1⟩))).flatten

/-- `basicChat` (langchain-chat.service): renders the basic template with
`input = user_query`, invokes the completion chain (which yields the
response bytes), and wraps the result with `successResponse`; any thrown
error goes through `exceptionHandling`. -/
def basicChat (complete : String → Except JsError (List Nat))
    (user_query : String) : OpResult :=
  let prompt := renderBasicChat user_query
  match complete prompt with
  | .ok response => ⟨[.completeCall prompt], [], .ok (successResponse response)⟩
  | .error e =>
    ⟨[.completeCall prompt], (exceptionHandling e).1, (exceptionHandling e).2⟩

/-- `contextAwareChat` (langchain-chat.service): all messages but the last
are formatted and joined as `chat_history`, the last message supplies the
`input`; reading `messages[messages.length - 1].content` of an empty array
throws a TypeError which the catch block maps through `exceptionHandling`
before any external call is made. -/
def contextAwareChat (complete : String → Except JsError (List Nat))
    (messages : List VercelChatMessage) : OpResult :=
  match messages.getLast? with
  | none =>
    let e := JsError.typeError "Cannot read properties of undefined"
    ⟨[], (exceptionHandling e).1, (exceptionHandling e).2⟩
  | some lastMessage =>
    let prompt := renderContextAware (contextAwareHistory messages)
      lastMessage.content
    match complete prompt with
    | .ok response =>
      ⟨[.completeCall prompt], [], .ok (successResponse response)⟩
    | .error e =>
      ⟨[.completeCall prompt], (exceptionHandling e).1, (exceptionHandling e).2⟩

/-- `documentChat` (langchain-chat.service): retrieves
`similaritySearch(user_query, 3)` from the vector store, serializes the
matches with JSON.stringify as the `context`, renders the document template
with the query as `question`, and invokes the completion chain; any thrown
error goes through `exceptionHandling`. -/
def documentChat (search : String → Nat → Except JsError (List Document))
    (complete : String → Except JsError (List Nat))
    (user_query : String) : OpResult :=
  match search user_query 3 with
  | .error e => ⟨[.searchCall user_query 3], (exceptionHandling e).1,
      (exceptionHandling e).2⟩
  | .ok documentContext =>
    let prompt := renderDocumentContext (jsonStringifyDocs documentContext)
      user_query
    match complete prompt with
    | .ok response =>
      ⟨[.searchCall user_query 3, .completeCall prompt], [],
        .ok (successResponse response)⟩
    | .error e =>
      ⟨[.searchCall user_query 3, .completeCall prompt],
        (exceptionHandling e).1, (exceptionHandling e).2⟩

/-- The filesystem and PDF loader environment of `uploadPDF`:
`path.resolve`, `existsSync`, and `PDFLoader.load` (which yields the list
of page texts of the PDF). -/
structure FsEnv where
  resolve : String → String
  fileExists : String → Bool
  loadPDF : String → Except JsError (List String)

/-- `uploadPDF` (langchain-chat.service): resolves
`PDF_BASE_PATH + '/' + file`, throws `BadRequestException('File does not
exist.')` when the resolved path does not exist, otherwise loads the PDF,
splits it, builds the tagged Documents, and hands them to the vector store
in one `addDocuments` call.  Every thrown error — including the
BadRequestException thrown inside the same try block — is caught, printed
with console.log, and passed to `exceptionHandling`. -/
def uploadPDF (env : FsEnv)
    (addDocuments : List Document → Except JsError Unit)
    (file : String) : OpResult :=
  let resolvedPath := env.resolve (PDF_BASE_PATH ++ "/" ++ file)
  if env.fileExists resolvedPath then
    match env.loadPDF resolvedPath with
    | .error e => ⟨[], e :: (exceptionHandling e).1, (exceptionHandling e).2⟩
    | .ok pdfPages =>
      let embeddings := mkEmbeddings (splitDocuments pdfPages)
      match addDocuments embeddings with
      | .ok _ =>
        ⟨[.addDocumentsCall embeddings], [], .ok ⟨200, MESSAGES_SUCCESS, ""⟩⟩
      | .error e =>
        ⟨[.addDocumentsCall embeddings], e :: (exceptionHandling e).1,
          (exceptionHandling e).2⟩
  else
    let e := JsError.badRequest "File does not exist."
    ⟨[], e :: (exceptionHandling e).1, (exceptionHandling e).2⟩

/-- A typed chat turn (`HumanMessage` / `AIMessage` from langchain). -/
inductive BaseMessage where
  | human (content : String)
  | ai (content : String)
deriving DecidableEq, Repr

/-- `formatBaseMessages` (langchain-chat.service): converts a caller
message to a typed turn; `vercelRoles.user` is the string `user`. -/
def formatBaseMessages (message : VercelChatMessage) : BaseMessage :=
  if message.role = "user" then .human message.content else .ai message.content

/-- One scratchpad entry of the agent: the requested tool invocation and
the captured observation. -/
structure AgentStep where
  tool : String
  args : String
  observation : String
deriving DecidableEq, Repr

/-- What the completion service returns to the agent in function-calling
mode: either a final answer or a tool-invocation request. -/
inductive AgentDecision where
  | finish (answer : String)
  | act (tool : String) (args : String)
deriving DecidableEq, Repr

/-- Termination of one agent invocation. -/
inductive AgentOutcome where
  | finalAnswer (answer : String)
  | didNotConverge
deriving DecidableEq, Repr

/-- Modelled from the spec: the bounded think/act/observe loop of the
Agent Executor (spec section 4.6); the loop itself is implemented by the
framework AgentExecutor and is not under src/.  Each iteration sends the
scratchpad to the completion service; a tool request is executed and
appended as an observation, a final answer terminates; when the iteration
budget is exhausted the distinct did-not-converge outcome is produced.
Returns (iterations consumed, outcome). -/
def runAgentLoop (think : List AgentStep → AgentDecision)
    (invokeTool : String → String → String) :
    Nat → List AgentStep → Nat × AgentOutcome
  | 0, _ => (0, .didNotConverge)
  | budget + 1, scratchpad =>
    match think scratchpad with
    | .finish answer => (1, .finalAnswer answer)
    | .act tool args =>
      let r := runAgentLoop think invokeTool budget
        (scratchpad ++ [⟨tool, args, invokeTool tool args⟩])
      (r.1 + 1, r.2)

/-- `agentChat` (langchain-chat.service): the history is converted to
typed turns with `formatBaseMessages`, the last message supplies the input
(an empty message array throws a TypeError exactly as in
`contextAwareChat`), and the executor loop runs with an empty scratchpad
under the configured iteration cap.  The loop body is modelled from the
spec (section 4.6), see `runAgentLoop`. -/
def agentChat
    (llm : String → List BaseMessage → List AgentStep → AgentDecision)
    (invokeTool : String → String → String) (maxIterations : Nat)
    (messages : List VercelChatMessage) : OpResult :=
  match messages.getLast? with
  | none =>
    let e := JsError.typeError "Cannot read properties of undefined"
    ⟨[], (exceptionHandling e).1, (exceptionHandling e).2⟩
  | some lastMessage =>
    let chat_history := messages.dropLast.map formatBaseMessages
    match (runAgentLoop (llm lastMessage.content chat_history) invokeTool
        maxIterations []).2 with
    | .finalAnswer answer => ⟨[], [], .ok ⟨200, MESSAGES_SUCCESS, answer⟩⟩
    | .didNotConverge => ⟨[], [], .didNotConverge⟩

/-- Modelled UTF-8 encoding of one character (what an upstream text
provider would emit as bytes for the generated text). -/
def utf8EncodeChar (c : Char) : List Nat :=
  let n := c.toNat
  if n < 128 then [n]
  else if n < 2048 then [192 + n / 64, 128 + n % 64]
  else if n < 65536 then
    [224 + n / 4096, 128 + n / 64 % 64, 128 + n % 64]
  else
    [240 + n / 262144, 128 + n / 4096 % 64, 128 + n / 64 % 64, 128 + n % 64]

/-- Modelled UTF-8 encoding of a string as a byte-value list. -/
def utf8Encode (s : String) : List Nat :=
  (s.data.map utf8EncodeChar).flatten

/-! ### Helper lemmas -/

theorem runAgentLoop_always_act (think : List AgentStep → AgentDecision)
    (invokeTool : String → String → String)
    (h : ∀ pad, ∃ t a, think pad = .act t a) :
    ∀ (cap : Nat) (pad : List AgentStep),
      runAgentLoop think invokeTool cap pad = (cap, .didNotConverge) := by
  intro cap
  induction cap with
  | zero => intro pad; rfl
  | succ n ih =>
    intro pad
    obtain ⟨t, a, ht⟩ := h pad
    simp [runAgentLoop, ht, ih]

theorem getLast?_cons_ne_none (m : VercelChatMessage)
    (ms : List VercelChatMessage) : (m :: ms).getLast? ≠ none := by
  induction ms generalizing m with
  | nil => simp [List.getLast?]
  | cons x xs ih =>
    rw [List.getLast?_cons_cons]
    exact ih x

theorem contextAwareChat_events_eq (complete : String → Except JsError (List Nat))
    (messages : List VercelChatMessage) (m : VercelChatMessage)
    (h : messages.getLast? = some m) :
    (contextAwareChat complete messages).events
      = [.completeCall (renderContextAware (contextAwareHistory messages)
          m.content)] := by
  unfold contextAwareChat
  rw [h]
  dsimp only
  cases complete (renderContextAware (contextAwareHistory messages) m.content) <;>
    rfl

theorem joinSep_empty_map_singleton (cs : List Char) :
    joinSep "" (cs.map String.singleton) = String.mk cs := by
  induction cs with
  | nil => rfl
  | cons c cs ih =>
    cases cs with
    | nil => rfl
    | cons d ds =>
      show String.singleton c ++ "" ++ joinSep "" ((d :: ds).map String.singleton)
        = String.mk (c :: d :: ds)
      rw [ih]
      rfl

theorem successResponse_data_eq (response : List Nat)
    (h : ∀ b ∈ response, b < 65536) :
    (successResponse response).data = String.mk (response.map Char.ofNat) := by
  show joinSep "" (response.map fromCharCode) = _
  have h1 : response.map fromCharCode
      = (response.map (fun b => Char.ofNat (b % 65536))).map String.singleton :=
    (List.map_map _ _ _).symm
  rw [h1, joinSep_empty_map_singleton]
  congr 1
  exact List.map_congr_left fun b hb => by rw [Nat.mod_eq_of_lt (h b hb)]

theorem utf8EncodeChar_ascii (c : Char) (h : c.toNat < 128) :
    utf8EncodeChar c = [c.toNat] := by
  simp [utf8EncodeChar, h]

theorem flatten_map_of_singleton {α β : Type} (f : α → List β) (g : α → β)
    (l : List α) (h : ∀ x ∈ l, f x = [g x]) : (l.map f).flatten = l.map g := by
  induction l with
  | nil => rfl
  | cons x xs ih =>
    rw [List.map_cons, List.flatten_cons, h x (by simp),
      ih fun y hy => h y (by simp [hy]), List.map_cons, List.singleton_append]

theorem chunkText_whole (text : String) (h0 : text.data ≠ [])
    (h1 : text.data.length ≤ 1000) : chunkText 1000 50 text = [text] := by
  unfold chunkText
  cases ht : text.data with
  | nil => exact absurd ht h0
  | cons c cs =>
    rw [ht] at h1
    show ((if (c :: cs).length ≤ 1000 then [c :: cs]
      else (c :: cs).take 1000 :: chunkChars 1000 (1000 - 50) cs.length
        ((c :: cs).drop (1000 - 50))).map String.mk) = [text]
    rw [if_pos h1, List.map_singleton, ← ht]

theorem mkEmbeddings_go (texts : List String)
    (h : ∀ t ∈ texts, chunkText 1000 50 t = [t]) :
    ∀ n : Nat,
      ((List.enumFrom n texts).map
        (fun p => (chunkText 1000 50 p.2).map (fun t => Document.mk t ⟨p.1⟩))).flatten
      = (List.enumFrom n texts).map (fun p => Document.mk p.2 ⟨p.1⟩) := by
  induction texts with
  | nil => intro n; rfl
  | cons t ts ih =>
    intro n
    show ((chunkText 1000 50 t).map (fun s => Document.mk s ⟨n⟩)
        ++ ((List.enumFrom (n + 1) ts).map _).flatten) = _
    rw [h t (by simp), ih (fun x hx => h x (by simp [hx])) (n + 1)]
    rfl

theorem mkEmbeddings_of_singleton (texts : List String)
    (h : ∀ t ∈ texts, chunkText 1000 50 t = [t]) :
    mkEmbeddings texts = texts.enum.map (fun p => Document.mk p.2 ⟨p.1⟩) :=
  mkEmbeddings_go texts h 0

/-! ### Claims -/

/-- C1: the claim says a missing source document yields a ClientError;
evaluating `uploadPDF` on a filesystem where the resolved file does not
exist shows the BadRequestException raised by the existence check is
swallowed by the catch-all and the caller instead receives the generic
HTTP 500 external-server-error outcome — not a client error. -/
theorem uploadPDF_missing_file_maps_to_server_error :
    (uploadPDF ⟨fun p => p, fun _ => false,
        fun _ => .error (.external "unreachable")⟩
      (fun _ => .ok ()) "missing.pdf").result = .thrown 500 serverErrorBody ∧
    ((uploadPDF ⟨fun p => p, fun _ => false,
        fun _ => .error (.external "unreachable")⟩
      (fun _ => .ok ()) "missing.pdf").result.isClientError = false) ∧
    (uploadPDF ⟨fun p => p, fun _ => false,
        fun _ => .error (.external "unreachable")⟩
      (fun _ => .ok ()) "missing.pdf").logs.head?
      = some (.badRequest "File does not exist.") :=
  ⟨rfl, by decide, rfl⟩

/-- C2: when the completion service requests a tool invocation on every
call, the spec-modelled agent loop consumes exactly the configured
iteration cap — it never terminates earlier — and `agentChat` terminates
with the distinct did-not-converge outcome, not an answer and not a thrown
dependency error. -/
theorem agentChat_convergence_at_cap
    (llm : String → List BaseMessage → List AgentStep → AgentDecision)
    (invokeTool : String → String → String) (cap : Nat)
    (m : VercelChatMessage) (ms : List VercelChatMessage)
    (h : ∀ inp hist pad, ∃ t a, llm inp hist pad = .act t a) :
    (∀ inp hist pad,
      runAgentLoop (llm inp hist) invokeTool cap pad = (cap, .didNotConverge)) ∧
    agentChat llm invokeTool cap (m :: ms) = ⟨[], [], .didNotConverge⟩ := by
  have hloop : ∀ inp hist pad,
      runAgentLoop (llm inp hist) invokeTool cap pad = (cap, .didNotConverge) :=
    fun inp hist => runAgentLoop_always_act _ _ (h inp hist) cap
  refine ⟨hloop, ?_⟩
  unfold agentChat
  cases hg : (m :: ms).getLast? with
  | none => exact absurd hg (getLast?_cons_ne_none m ms)
  | some lastMessage =>
    dsimp only
    rw [hloop]

/-- Witness for C2 at a concrete mock completion service and cap 3. -/
theorem agentChat_convergence_at_cap_witness :
    agentChat (fun _ _ _ => .act "tavily_search" "q") (fun _ _ => "obs") 3
      [⟨"user", "hi"⟩] = ⟨[], [], .didNotConverge⟩ :=
  (agentChat_convergence_at_cap _ _ 3 ⟨"user", "hi"⟩ []
    (fun _ _ _ => ⟨"tavily_search", "q", rfl⟩)).2

/-- C3 counterexample: on the empty message sequence `contextAwareChat`
does not yield a client error — the surfaced outcome is the thrown generic
HTTP 500 external-server-error. -/
theorem contextAwareChat_empty_not_client_error :
    (contextAwareChat (fun _ => .ok []) []).result = .thrown 500 serverErrorBody ∧
    ((contextAwareChat (fun _ => .ok []) []).result.isClientError = false) :=
  ⟨rfl, by decide⟩

/-- C3 (amended): on the empty message sequence, reading the content of the
missing last message throws a TypeError before any external call; the
catch-all maps it to the generic HTTP 500 external-server-error outcome,
not a ClientError. -/
theorem contextAwareChat_empty_server_error :
    ∀ complete : String → Except JsError (List Nat),
      contextAwareChat complete []
        = ⟨[], [.typeError "Cannot read properties of undefined"],
            .thrown 500 serverErrorBody⟩ :=
  fun _ => rfl

/-- C5: for messages user-A, assistant-B, user-C, the rendered chat-history
block is exactly user-A and assistant-B lines joined by one newline, and
the input handed to the template is C, the content of the last message. -/
theorem contextAwareChat_history_and_input (a b c : String)
    (complete : String → Except JsError (List Nat)) :
    contextAwareHistory [⟨"user", a⟩, ⟨"assistant", b⟩, ⟨"user", c⟩]
        = "user: " ++ a ++ "\n" ++ "assistant: " ++ b ∧
      (contextAwareChat complete
          [⟨"user", a⟩, ⟨"assistant", b⟩, ⟨"user", c⟩]).events
        = [.completeCall (renderContextAware
            ("user: " ++ a ++ "\n" ++ "assistant: " ++ b) c)] := by
  have hh : contextAwareHistory [⟨"user", a⟩, ⟨"assistant", b⟩, ⟨"user", c⟩]
      = "user: " ++ a ++ "\n" ++ "assistant: " ++ b := by
    show (("user: " ++ a) ++ "\n") ++ ("assistant: " ++ b)
      = "user: " ++ a ++ "\n" ++ "assistant: " ++ b
    exact (String.append_assoc (("user: " ++ a) ++ "\n") "assistant: " b).symm
  refine ⟨hh, ?_⟩
  rw [contextAwareChat_events_eq complete
    [⟨"user", a⟩, ⟨"assistant", b⟩, ⟨"user", c⟩] ⟨"user", c⟩ rfl, hh]

/-- C6: `documentChat` queries the vector store with the user query and
k = 3, and invokes the completion service with the document template
rendered from the JSON-serialized matches as context and the query as the
question. -/
theorem documentChat_calls_search_k3_and_completion
    (search : String → Nat → Except JsError (List Document))
    (complete : String → Except JsError (List Nat)) (q : String)
    (docs : List Document) (h : search q 3 = .ok docs) :
    (documentChat search complete q).events
      = [.searchCall q 3,
         .completeCall (renderDocumentContext (jsonStringifyDocs docs) q)] := by
  unfold documentChat
  rw [h]
  dsimp only
  cases complete (renderDocumentContext (jsonStringifyDocs docs) q) <;> rfl

/-- Witness for C6 at a concrete store and completion service. -/
theorem documentChat_calls_witness :
    (documentChat (fun _ _ => .ok [⟨"chunk", ⟨0⟩⟩]) (fun _ => .ok []) "q").events
      = [.searchCall "q" 3,
         .completeCall (renderDocumentContext
           (jsonStringifyDocs [⟨"chunk", ⟨0⟩⟩]) "q")] :=
  documentChat_calls_search_k3_and_completion _ _ "q" [⟨"chunk", ⟨0⟩⟩] rfl

/-- C7: every failure inside a chat operation is mapped to the one generic
external service-error outcome: the internal cause is logged, and the
surfaced outcome is the same constant for every error, so it never carries
the provider-specific detail. -/
theorem errors_mapped_to_single_external_error :
    (∀ e : JsError, exceptionHandling e = ([e], .thrown 500 serverErrorBody)) ∧
    (∀ e eOther : JsError,
      (exceptionHandling e).2 = (exceptionHandling eOther).2) ∧
    (∀ (complete : String → Except JsError (List Nat)) (q : String)
        (e : JsError), complete (renderBasicChat q) = .error e →
      basicChat complete q
        = ⟨[.completeCall (renderBasicChat q)], [e],
            .thrown 500 serverErrorBody⟩) ∧
    (∀ (search : String → Nat → Except JsError (List Document))
        (complete : String → Except JsError (List Nat)) (q : String)
        (e : JsError), search q 3 = .error e →
      documentChat search complete q
        = ⟨[.searchCall q 3], [e], .thrown 500 serverErrorBody⟩) := by
  refine ⟨fun e => rfl, fun e eOther => rfl, ?_, ?_⟩
  · intro complete q e h
    unfold basicChat
    dsimp only
    rw [h]
    rfl
  · intro search complete q e h
    unfold documentChat
    rw [h]
    rfl

/-- Witness for C7: a concrete completion failure in `basicChat` is logged
and surfaced as the constant 500 outcome. -/
theorem errors_mapped_witness :
    basicChat (fun _ => .error (.external "boom")) "hi"
      = ⟨[.completeCall (renderBasicChat "hi")], [.external "boom"],
          .thrown 500 serverErrorBody⟩ :=
  errors_mapped_to_single_external_error.2.2.1 _ "hi" _ rfl

/-- C8: with an empty vector store, `documentChat` serializes the empty
match list as the empty context block, still invokes completion, and
returns the answer — no error outcome arises from the empty retrieval. -/
theorem documentChat_empty_store_succeeds
    (complete : String → Except JsError (List Nat)) (q : String)
    (response : List Nat)
    (h : complete (renderDocumentContext "[]" q) = .ok response) :
    jsonStringifyDocs [] = "[]" ∧
    documentChat (fun _ _ => .ok []) complete q
      = ⟨[.searchCall q 3, .completeCall (renderDocumentContext "[]" q)], [],
          .ok (successResponse response)⟩ := by
  refine ⟨rfl, ?_⟩
  unfold documentChat
  dsimp only
  have h' : complete (renderDocumentContext (jsonStringifyDocs []) q)
      = .ok response := h
  rw [h']
  rfl

/-- Witness for C8 at a concrete completion service. -/
theorem documentChat_empty_store_witness :
    jsonStringifyDocs [] = "[]" ∧
    documentChat (fun _ _ => .ok []) (fun _ => .ok [104, 105]) "q"
      = ⟨[.searchCall "q" 3, .completeCall (renderDocumentContext "[]" "q")],
          [], .ok (successResponse [104, 105])⟩ :=
  documentChat_empty_store_succeeds (fun _ => .ok [104, 105]) "q" [104, 105] rfl

/-- C9: the data field of the success response is the per-byte decoding of
the completion chain's byte output — each byte becomes exactly one
character in order, so ASCII byte sequences round-trip to their string
while a multi-byte UTF-8 sequence is not decoded as UTF-8. -/
theorem successResponse_per_byte_decoding :
    (∀ response : List Nat, (∀ b ∈ response, b < 256) →
      (successResponse response).data = String.mk (response.map Char.ofNat)) ∧
    (∀ s : String, (∀ c ∈ s.data, c.toNat < 128) →
      (successResponse (utf8Encode s)).data = s) ∧
    (successResponse (utf8Encode "é")).data ≠ "é" := by
  refine ⟨?_, ?_, by decide⟩
  · intro response h
    exact successResponse_data_eq response fun b hb =>
      lt_trans (h b hb) (by norm_num)
  · intro s hs
    have henc : utf8Encode s = s.data.map Char.toNat := by
      unfold utf8Encode
      rw [List.map_congr_left fun c hc => utf8EncodeChar_ascii c (hs c hc)]
      exact flatten_map_of_singleton _ Char.toNat s.data fun c hc => rfl
    rw [henc, successResponse_data_eq _ (fun b hb => ?_), List.map_map]
    · rw [List.map_congr_left fun c hc =>
        show (Char.ofNat ∘ Char.toNat) c = id c from Char.ofNat_toNat c,
        List.map_id]
    · obtain ⟨c, hc, hbc⟩ := List.mem_map.mp hb
      exact hbc ▸ lt_trans (hs c hc) (by norm_num)

/-- Witness for C9 at concrete byte sequences. -/
theorem successResponse_per_byte_decoding_witness :
    (successResponse [104, 105]).data = String.mk ([104, 105].map Char.ofNat) ∧
    (successResponse (utf8Encode "hi")).data = "hi" :=
  ⟨successResponse_per_byte_decoding.1 [104, 105] (by decide),
   successResponse_per_byte_decoding.2.1 "hi" (by decide)⟩

/-- A one-page PDF whose page text is 1001 characters, so the first
splitting pass produces two chunks from the single page. -/
def onePagePDF : List String := [String.mk (List.replicate 1001 'a')]

set_option maxRecDepth 100000 in
/-- C4 counterexample: for a single-page document long enough to split
into two chunks, `uploadPDF` stores a chunk whose metadata pageNumber is 1
although the source document has only page 0 — the tag is the index into
the flattened chunk list, not the originating page index. -/
theorem uploadPDF_page_metadata_cex :
    (mkEmbeddings (splitDocuments onePagePDF)).map
        (fun d => d.metadata.pageNumber) = [0, 1] ∧
      onePagePDF.length = 1 := by
  constructor
  · decide
  · rfl

/-- C4 (amended): each stored chunk's metadata pageNumber is the index of
the first-pass chunk it was re-split from; this coincides with the
originating page index exactly when every page text is nonempty and fits in
one 1000-character chunk, and in every successful ingestion the whole chunk
sequence is handed to the vector store in a single addDocuments call. -/
theorem uploadPDF_single_addDocuments_and_tagging (env : FsEnv)
    (addDocuments : List Document → Except JsError Unit) (file : String)
    (pdfPages : List String)
    (hex : env.fileExists (env.resolve (PDF_BASE_PATH ++ "/" ++ file)) = true)
    (hload : env.loadPDF (env.resolve (PDF_BASE_PATH ++ "/" ++ file))
      = .ok pdfPages)
    (hfit : ∀ p ∈ pdfPages, p.data ≠ [] ∧ p.data.length ≤ 1000) :
    (uploadPDF env addDocuments file).events
        = [.addDocumentsCall (mkEmbeddings (splitDocuments pdfPages))] ∧
      mkEmbeddings (splitDocuments pdfPages)
        = pdfPages.enum.map (fun p => Document.mk p.2 ⟨p.1⟩) := by
  have hsingle : ∀ p ∈ pdfPages, chunkText 1000 50 p = [p] :=
    fun p hp => chunkText_whole p (hfit p hp).1 (hfit p hp).2
  have hsplit : splitDocuments pdfPages = pdfPages :=
    flatten_map_of_singleton _ id pdfPages (fun p hp => hsingle p hp) |>.trans
      (List.map_id pdfPages)
  constructor
  · simp only [uploadPDF, hex, if_true, hload]
    cases addDocuments (mkEmbeddings (splitDocuments pdfPages)) <;> rfl
  · rw [hsplit, mkEmbeddings_of_singleton pdfPages hsingle]

/-- Witness for C4 (amended) at a concrete one-page environment. -/
theorem uploadPDF_single_addDocuments_witness :
    (uploadPDF ⟨fun p => p, fun _ => true, fun _ => .ok ["hello"]⟩
        (fun _ => .ok ()) "doc.pdf").events
        = [.addDocumentsCall (mkEmbeddings (splitDocuments ["hello"]))] ∧
      mkEmbeddings (splitDocuments ["hello"])
        = (["hello"] : List String).enum.map (fun p => Document.mk p.2 ⟨p.1⟩) :=
  uploadPDF_single_addDocuments_and_tagging _ _ "doc.pdf" ["hello"] rfl rfl
    (by decide)

/-- C10: when the resolved file does not exist, `uploadPDF` makes no
external call at all — in particular no addDocuments call reaches the
vector store, so the stored state is unchanged by the failing ingestion. -/
theorem uploadPDF_no_write_when_file_missing (env : FsEnv)
    (addDocuments : List Document → Except JsError Unit) (file : String)
    (h : env.fileExists (env.resolve (PDF_BASE_PATH ++ "/" ++ file)) = false) :
    (uploadPDF env addDocuments file).events = [] ∧
    (uploadPDF env addDocuments file).result = .thrown 500 serverErrorBody := by
  constructor <;> simp [uploadPDF, h, exceptionHandling]

/-- Witness for C10 at a concrete filesystem without the file. -/
theorem uploadPDF_no_write_witness :
    (uploadPDF ⟨fun p => p, fun _ => false, fun _ => .ok []⟩
        (fun _ => .ok ()) "a.pdf").events = [] ∧
      (uploadPDF ⟨fun p => p, fun _ => false, fun _ => .ok []⟩
        (fun _ => .ok ()) "a.pdf").result = .thrown 500 serverErrorBody :=
  uploadPDF_no_write_when_file_missing _ _ "a.pdf" rfl

end LangchainChat
